import Mathlib

/-!
Verification development for the trend-analysis engine of the
AI-Keyword-Trend-Tracker repository.

The embedding below translates the Python sources into Lean:
  - src/core/trend_analyzer.py   (class TrendAnalyzer)
  - src/monthly_notifier.py      (extract_alerts_from_analysis)
Python dict-of-years histories become ordered association lists; a year key
that is not parseable as an integer is modelled by a key of none (Python's
int(year_str) raising ValueError).  Exact rational arithmetic stands in for
Python floats; standard deviation uses Real.sqrt.
-/

/-- A keyword's monthly-volume history: an ordered list of (year key, months)
pairs.  The key is none when the year label cannot be parsed as an integer. -/
abbrev History := List (Option ℤ × List ℤ)

/-- Rounds to one decimal place; models Python round(x, 1).  (The two differ
only on exact midpoints, which never arise in the statements below.) -/
def round1 (q : ℚ) : ℚ := ((round (q * 10) : ℤ) : ℚ) / 10

/-- Rounds to two decimal places on reals; models Python round(x, 2). -/
noncomputable def round2 (x : ℝ) : ℝ := ((round (x * 100) : ℤ) : ℝ) / 100

/-- Truncation toward zero; models Python int() applied to a float. -/
def truncInt (q : ℚ) : ℤ := if q < 0 then ⌈q⌉ else ⌊q⌋

/-- State of trend_analyzer.TrendAnalyzer: the reference month indices and
the current-year data computed in __init__. -/
structure TrendAnalyzer where
  month_index : ℕ
  next_month_index : ℕ
  next_3mo_indices : List ℕ
  current_year : ℤ
  previous_month_current_year : ℕ

/-- TrendAnalyzer.__init__: month_index is the optional argument if given,
else (now.month - 2 + 12) % 12; previous_month_current_year is
(now.month - 1 + 12) % 12; current_year is now.year.  nowMonth is the 1-based
calendar month of datetime.now(). -/
def TrendAnalyzer.init (monthIndexArg : Option ℕ) (nowMonth : ℕ) (nowYear : ℤ) :
    TrendAnalyzer :=
  let m : ℕ := match monthIndexArg with
    | some m => m
    | none => (((nowMonth : ℤ) - 2 + 12) % 12).toNat
  { month_index := m
    next_month_index := (m + 1) % 12
    next_3mo_indices := [(m + 1) % 12, (m + 2) % 12, (m + 3) % 12]
    current_year := nowYear
    previous_month_current_year := (((nowMonth : ℤ) - 1 + 12) % 12).toNat }

/-- TrendAnalyzer._safe_get: arr[i] if i < len(arr) else 0. -/
def safeGet (arr : List ℤ) (i : ℕ) : ℤ := arr.getD i 0

/-- TrendAnalyzer._safe_avg: average of the values at the given indices that
are strictly positive; 0 when none is. -/
def safeAvg (arr : List ℤ) (idxs : List ℕ) : ℚ :=
  let vals := idxs.map (fun i => safeGet arr i)
  let nonZeroVals := vals.filter (fun v => decide (0 < v))
  if nonZeroVals.isEmpty then 0
  else (nonZeroVals.sum : ℚ) / (nonZeroVals.length : ℚ)

/-- The body of the year loop of _calculate_pct_change: a malformed year key,
a year at or after the current year, a zero base value, or a non-positive
future value leave the collected list unchanged (the loop's continue paths);
otherwise the relative change is prepended. -/
def pctChangeStep (A : TrendAnalyzer) (singleMonth : Bool)
    (entry : Option ℤ × List ℤ) (acc : List ℚ) : List ℚ :=
  match entry.1 with
  | none => acc
  | some year =>
    if A.current_year ≤ year then acc
    else
      let currentValue := safeGet entry.2 A.month_index
      if currentValue = 0 then acc
      else
        let futureValue : ℚ :=
          if singleMonth then ((safeGet entry.2 A.next_month_index : ℤ) : ℚ)
          else safeAvg entry.2 A.next_3mo_indices
        if 0 < futureValue then
          ((futureValue - (currentValue : ℚ)) / (currentValue : ℚ)) :: acc
        else acc

/-- TrendAnalyzer._calculate_pct_change: collects, over years strictly before
the current year whose value at month_index is non-zero and whose future value
is positive, the relative change (future - base) / base, and returns the mean
of the collected changes times 100 rounded to one decimal, or 0.0 when none
was collected. -/
def calculatePctChange (A : TrendAnalyzer) (history : History)
    (singleMonth : Bool) : ℚ :=
  let changes : List ℚ := history.foldr (pctChangeStep A singleMonth) []
  if changes.isEmpty then 0
  else round1 (changes.sum / (changes.length : ℚ) * 100)

/-- The body of the year loop of _calculate_avg_monthly_searches: a year
strictly before the current year contributes its full month list, the current
year contributes its months before index previous_month_current_year, and any
other entry (malformed key or future year) contributes nothing. -/
def avgSearchesStep (A : TrendAnalyzer) (entry : Option ℤ × List ℤ)
    (acc : List ℤ) : List ℤ :=
  match entry.1 with
  | none => acc
  | some year =>
    if year < A.current_year then entry.2 ++ acc
    else if year = A.current_year then
      entry.2.take A.previous_month_current_year ++ acc
    else acc

/-- TrendAnalyzer._calculate_avg_monthly_searches: concatenates the full month
lists of years strictly before the current year, and the current year's months
up to (excluding) index previous_month_current_year, then returns the integer
part of the mean of the strictly positive entries (0 when none). -/
def calculateAvgMonthlySearches (A : TrendAnalyzer) (history : History) : ℤ :=
  let allSearches : List ℤ := history.foldr (avgSearchesStep A) []
  if allSearches.isEmpty then 0
  else
    let validSearches := allSearches.filter (fun s => decide (0 < s))
    if validSearches.isEmpty then 0
    else truncInt ((validSearches.sum : ℚ) / (validSearches.length : ℚ))

/-- The contribution of one history entry to the month-i bucket of
_calculate_seasonal_volatility: its value at index i when the entry's year is
strictly before the current year and that value is strictly positive. -/
def monthValsStep (A : TrendAnalyzer) (i : ℕ) (entry : Option ℤ × List ℤ)
    (acc : List ℤ) : List ℤ :=
  match entry.1 with
  | none => acc
  | some year =>
    if year < A.current_year then
      (match entry.2[i]? with
       | some v => if 0 < v then [v] else []
       | none => []) ++ acc
    else acc

/-- The strictly positive values observed at calendar-month index i across the
years of the history strictly before the current year, in history order
(the per-month buckets built by _calculate_seasonal_volatility). -/
def monthVals (A : TrendAnalyzer) (history : History) (i : ℕ) : List ℤ :=
  history.foldr (monthValsStep A i) []

/-- The twelve per-month means of _calculate_seasonal_volatility:
np.mean(monthly_searches.get(i, [0])) for i in range(12). -/
def monthlyMeans (A : TrendAnalyzer) (history : History) : List ℚ :=
  (List.range 12).map (fun i =>
    let vs := monthVals A history i
    if vs.isEmpty then 0 else (vs.sum : ℚ) / (vs.length : ℚ))

/-- TrendAnalyzer._calculate_seasonal_volatility: 0.0 when the twelve monthly
means sum to 0, else the population standard deviation of the means divided by
their mean, rounded to two decimals (with a second guard returning 0.0 when
the mean of means is 0). -/
noncomputable def calculateSeasonalVolatility (A : TrendAnalyzer)
    (history : History) : ℝ :=
  let means := monthlyMeans A history
  if means.sum = 0 then 0
  else
    let avgMonthlyMean : ℚ := means.sum / (means.length : ℚ)
    let variance : ℚ :=
      (means.map (fun m => (m - avgMonthlyMean) ^ 2)).sum / (means.length : ℚ)
    let stdDev : ℝ := Real.sqrt (variance : ℝ)
    if avgMonthlyMean = 0 then 0
    else round2 (stdDev / (avgMonthlyMean : ℝ))

/-- A keyword dictionary from the category → ad-group → keyword tree.  The
four metric fields are the keys written by _analyze_keyword; keyword,
trend_history and similar_keywords are the documented input keys; extra
stands for every other pre-existing key of the dictionary. -/
structure KeywordData (α : Type) where
  keyword : String
  trend_history : History
  similar_keywords : List (String × History)
  extra : α
  pct_change_next_month : ℚ
  pct_change_next_3mo : ℚ
  avg_monthly_searches : ℤ
  seasonal_volatility_score : ℝ

/-- An ad-group dictionary: its keywords list, its aggregate metric keys, and
extra for every other key. -/
structure AdGroupData (α β : Type) where
  keywords : List (KeywordData α)
  extra : β
  pct_change_next_month : ℚ
  pct_change_next_3mo : ℚ
  avg_monthly_searches : ℤ
  seasonal_volatility_score : ℝ

/-- A category dictionary: its ad_groups list, its aggregate metric keys, and
extra for every other key. -/
structure CategoryData (α β γ : Type) where
  ad_groups : List (AdGroupData α β)
  extra : γ
  pct_change_next_month : ℚ
  pct_change_next_3mo : ℚ
  avg_monthly_searches : ℤ
  seasonal_volatility_score : ℝ

/-- TrendAnalyzer._analyze_keyword: computes the four metrics from the
keyword's trend_history and writes them onto the keyword record, leaving
every other field unchanged. -/
noncomputable def analyzeKeyword (A : TrendAnalyzer) (kd : KeywordData α) :
    KeywordData α :=
  { kd with
    avg_monthly_searches := calculateAvgMonthlySearches A kd.trend_history
    seasonal_volatility_score := calculateSeasonalVolatility A kd.trend_history
    pct_change_next_month := calculatePctChange A kd.trend_history true
    pct_change_next_3mo := calculatePctChange A kd.trend_history false }

/-- TrendAnalyzer._analyze_ad_group: analyzes every keyword, replaces the
keywords list with the analyzed one, and (when the list is non-empty) writes
the four aggregate metrics: the mean of the keywords' percentages rounded to
one decimal, the integer part of the mean of their average searches, and the
mean of their volatility scores rounded to two decimals. -/
noncomputable def analyzeAdGroup (A : TrendAnalyzer) (g : AdGroupData α β) :
    AdGroupData α β :=
  let analyzedKeywords := g.keywords.map (analyzeKeyword A)
  let g1 := { g with keywords := analyzedKeywords }
  if analyzedKeywords.isEmpty then g1
  else
    { g1 with
      pct_change_next_month :=
        round1 ((analyzedKeywords.map (fun kw => kw.pct_change_next_month)).sum /
          (analyzedKeywords.length : ℚ))
      pct_change_next_3mo :=
        round1 ((analyzedKeywords.map (fun kw => kw.pct_change_next_3mo)).sum /
          (analyzedKeywords.length : ℚ))
      avg_monthly_searches :=
        truncInt (((analyzedKeywords.map (fun kw => kw.avg_monthly_searches)).sum : ℚ) /
          (analyzedKeywords.length : ℚ))
      seasonal_volatility_score :=
        round2 ((analyzedKeywords.map (fun kw => kw.seasonal_volatility_score)).sum /
          (analyzedKeywords.length : ℝ)) }

/-- TrendAnalyzer._analyze_category: analyzes every ad group, replaces the
ad_groups list, and (when non-empty) writes the same four aggregate metrics
computed over the ad groups' own metrics. -/
noncomputable def analyzeCategory (A : TrendAnalyzer) (c : CategoryData α β γ) :
    CategoryData α β γ :=
  let analyzedAdGroups := c.ad_groups.map (analyzeAdGroup A)
  let c1 := { c with ad_groups := analyzedAdGroups }
  if analyzedAdGroups.isEmpty then c1
  else
    { c1 with
      pct_change_next_month :=
        round1 ((analyzedAdGroups.map (fun g => g.pct_change_next_month)).sum /
          (analyzedAdGroups.length : ℚ))
      pct_change_next_3mo :=
        round1 ((analyzedAdGroups.map (fun g => g.pct_change_next_3mo)).sum /
          (analyzedAdGroups.length : ℚ))
      avg_monthly_searches :=
        truncInt (((analyzedAdGroups.map (fun g => g.avg_monthly_searches)).sum : ℚ) /
          (analyzedAdGroups.length : ℚ))
      seasonal_volatility_score :=
        round2 ((analyzedAdGroups.map (fun g => g.seasonal_volatility_score)).sum /
          (analyzedAdGroups.length : ℝ)) }

/-- TrendAnalyzer.analyze: analyzes every category of the input list
(an empty input returns the empty list). -/
noncomputable def analyze (A : TrendAnalyzer) (data : List (CategoryData α β γ)) :
    List (CategoryData α β γ) :=
  if data.isEmpty then [] else data.map (analyzeCategory A)

/-- An entry of the final analysis list consumed by
extract_alerts_from_analysis: the keyword, the two blended percentages under
the total_weighted key, and the injected historical_average_monthly_volume
key (none when absent, read with default 0). -/
structure AnalysisEntry where
  keyword : String
  weighted_pct_change_month : ℚ
  weighted_pct_change_3mo : ℚ
  historical_average_monthly_volume : Option ℚ

/-- An alert record produced by extract_alerts_from_analysis. -/
structure Alert where
  keyword : String
  pct_change_month : ℚ
  pct_change_3mo : ℚ
  historical_average : ℤ
deriving DecidableEq

/-- monthly_notifier.extract_alerts_from_analysis: for each entry whose
weighted monthly change is at least min_increase_pct or at most
max_decrease_pct and whose historical average (default 0 when the key is
missing) is at least min_hits_threshold, emits an alert record with the two
percentages rounded to one decimal and the historical average truncated to an
integer. -/
def extractAlertsFromAnalysis (results : List AnalysisEntry)
    (minIncreasePct maxDecreasePct : ℚ) (minHitsThreshold : ℚ) : List Alert :=
  results.foldr (fun entry acc =>
    let pctChange := entry.weighted_pct_change_month
    let historicalAverage := entry.historical_average_monthly_volume.getD 0
    if (minIncreasePct ≤ pctChange ∨ pctChange ≤ maxDecreasePct) ∧
        minHitsThreshold ≤ historicalAverage then
      { keyword := entry.keyword
        pct_change_month := round1 pctChange
        pct_change_3mo := round1 entry.weighted_pct_change_3mo
        historical_average := truncInt historicalAverage } :: acc
    else acc) []

/-- Modelled from the spec: the producer of the total_weighted blended
forecast is not part of src/ (monthly_notifier.py and core/transformers.py
only read the total_weighted key).  Per the spec's WeightedForecast clause:
weighted = 0.5 * own + 0.5 * mean(similar forecasts); when there are no
similar keywords the keyword's own forecast is returned unchanged. -/
def weightedForecast (own : ℚ) (similar : List ℚ) : ℚ :=
  if similar.isEmpty then own
  else (1 / 2) * own + (1 / 2) * (similar.sum / (similar.length : ℚ))

/-- The per-year contribution of the percent-change algorithm as the spec
states it: every parseable year strictly before the current year whose base
value at month_index is non-zero contributes (future - base) / base; a year
is skipped only when the base is 0 (no condition on the future value). -/
def pctChangeContribSpec (A : TrendAnalyzer) (singleMonth : Bool)
    (entry : Option ℤ × List ℤ) : Option ℚ :=
  match entry.1 with
  | none => none
  | some year =>
    if year < A.current_year then
      let base := safeGet entry.2 A.month_index
      if base = 0 then none
      else
        let future : ℚ :=
          if singleMonth then ((safeGet entry.2 A.next_month_index : ℤ) : ℚ)
          else safeAvg entry.2 A.next_3mo_indices
        some ((future - (base : ℚ)) / (base : ℚ))
    else none

/-- The per-year contribution that the code actually implements: as in
pctChangeContribSpec but a year is also skipped when its future value is not
strictly positive. -/
def pctChangeContribAmended (A : TrendAnalyzer) (singleMonth : Bool)
    (entry : Option ℤ × List ℤ) : Option ℚ :=
  match entry.1 with
  | none => none
  | some year =>
    if year < A.current_year then
      let base := safeGet entry.2 A.month_index
      if base = 0 then none
      else
        let future : ℚ :=
          if singleMonth then ((safeGet entry.2 A.next_month_index : ℤ) : ℚ)
          else safeAvg entry.2 A.next_3mo_indices
        if 0 < future then some ((future - (base : ℚ)) / (base : ℚ)) else none
    else none

/-- Mean of the collected changes times 100 rounded to one decimal, 0 when no
year contributed: the final step shared by both formulations. -/
def pctChangeOfContribs (changes : List ℚ) : ℚ :=
  if changes.isEmpty then 0
  else round1 (changes.sum / (changes.length : ℚ) * 100)

/-- The percent-change metric exactly as the claim states the algorithm. -/
def pctChangeClaimed (A : TrendAnalyzer) (history : History)
    (singleMonth : Bool) : ℚ :=
  pctChangeOfContribs (history.filterMap (pctChangeContribSpec A singleMonth))

/-- The percent-change metric as amended: a year contributes only when its
base is non-zero and its future value is strictly positive. -/
def pctChangeAmended (A : TrendAnalyzer) (history : History)
    (singleMonth : Bool) : ℚ :=
  pctChangeOfContribs (history.filterMap (pctChangeContribAmended A singleMonth))

/-- The average-monthly-searches metric exactly as the claim states it: the
exact rational mean of the positive values drawn from all full years strictly
before the current year plus the current year's months strictly before the
most-recently-completed month, whose index is (nowMonth - 2 + 12) % 12 for a
1-based calendar month nowMonth. -/
def avgMonthlySearchesClaimed (nowMonth : ℕ) (nowYear : ℤ)
    (history : History) : ℚ :=
  let completedIdx : ℕ := (((nowMonth : ℤ) - 2 + 12) % 12).toNat
  let selected : List ℤ := (history.filterMap (fun entry =>
    match entry.1 with
    | none => none
    | some year =>
      if year < nowYear then some entry.2
      else if year = nowYear then some (entry.2.take completedIdx)
      else none)).flatten
  let positives := selected.filter (fun s => decide (0 < s))
  if positives.isEmpty then 0
  else (positives.sum : ℚ) / (positives.length : ℚ)

/-- The months selected by _calculate_avg_monthly_searches, written as a flat
selection: full month lists of years before the current year, and the current
year's months strictly before index previous_month_current_year. -/
def avgSelectedAmended (A : TrendAnalyzer) (history : History) : List ℤ :=
  (history.filterMap (fun entry =>
    match entry.1 with
    | none => none
    | some year =>
      if year < A.current_year then some entry.2
      else if year = A.current_year then
        some (entry.2.take A.previous_month_current_year)
      else none)).flatten

/-- The average-monthly-searches metric as amended: the integer part of the
mean of the positive selected values, where the current year contributes its
months strictly before index previous_month_current_year, i.e. all months
strictly before the current calendar month, including the most-recently
completed one. -/
def avgMonthlySearchesAmended (A : TrendAnalyzer) (history : History) : ℤ :=
  let positives := (avgSelectedAmended A history).filter (fun s => decide (0 < s))
  if positives.isEmpty then 0
  else truncInt ((positives.sum : ℚ) / (positives.length : ℚ))

/-- The safe-average contract as the claim states it: the arithmetic mean of
the values at the kept indices, an index being kept exactly when its
(out-of-range-defaulted-to-zero) value is strictly positive; 0 when no index
is kept. -/
def safeAvgClaimed (arr : List ℤ) (idxs : List ℕ) : ℚ :=
  let kept := idxs.filter (fun i => decide (0 < safeGet arr i))
  if kept.isEmpty then 0
  else ((kept.map (fun i => safeGet arr i)).sum : ℚ) / (kept.length : ℚ)

/-- The alert condition of extract_alerts_from_analysis: the weighted monthly
change is at least min_increase_pct or at most max_decrease_pct, and the
historical average (0 when missing) is at least min_hits_threshold. -/
def alertCond (minIncreasePct maxDecreasePct minHitsThreshold : ℚ)
    (entry : AnalysisEntry) : Prop :=
  (minIncreasePct ≤ entry.weighted_pct_change_month ∨
    entry.weighted_pct_change_month ≤ maxDecreasePct) ∧
  minHitsThreshold ≤ entry.historical_average_monthly_volume.getD 0

instance (a b c : ℚ) (e : AnalysisEntry) : Decidable (alertCond a b c e) := by
  unfold alertCond; infer_instance

/-- The alert record built from a qualifying analysis entry. -/
def mkAlert (entry : AnalysisEntry) : Alert :=
  { keyword := entry.keyword
    pct_change_month := round1 entry.weighted_pct_change_month
    pct_change_3mo := round1 entry.weighted_pct_change_3mo
    historical_average :=
      truncInt (entry.historical_average_monthly_volume.getD 0) }

/-- The mean of the twelve per-month means (np.mean(monthly_means)). -/
def meanOfMeans (A : TrendAnalyzer) (history : History) : ℚ :=
  (monthlyMeans A history).sum / ((monthlyMeans A history).length : ℚ)

/-- The population variance of the twelve per-month means (the square of
np.std(monthly_means)). -/
def varOfMeans (A : TrendAnalyzer) (history : History) : ℚ :=
  ((monthlyMeans A history).map (fun m => (m - meanOfMeans A history) ^ 2)).sum /
    ((monthlyMeans A history).length : ℚ)

/-- An analyzer built as in production: TrendAnalyzer() constructed with no
argument when datetime.now() falls in October 2025, so month_index = 8
(September, the most recently completed month), next_month_index = 9, and
previous_month_current_year = 9. -/
def octAnalyzer : TrendAnalyzer := TrendAnalyzer.init none 10 2025

/-- A history with one complete past year whose September value is 100 and
whose October value is 0. -/
def histZeroFuture : History := [(some 2024, [0, 0, 0, 0, 0, 0, 0, 0, 100, 0, 0, 0])]

/-- A history with a past year carrying values 1 and 2 in January and
February, and a current-year entry whose only non-zero value, 100, sits at
index 8, the most recently completed month (September). -/
def histBoundary : History :=
  [(some 2024, [1, 2, 0, 0, 0, 0, 0, 0, 0, 0, 0, 0]),
   (some 2025, [0, 0, 0, 0, 0, 0, 0, 0, 100, 0, 0, 0])]

/-- A past-year history whose twelve monthly values are 1001 once and 1000
eleven times: its per-month means are neither all zero nor all equal, yet the
coefficient of variation is far below 0.005. -/
def histTinyCV : History :=
  [(some 2024, [1001, 1000, 1000, 1000, 1000, 1000, 1000, 1000, 1000, 1000, 1000, 1000])]

/-- A history with no prior-year data and only eleven entries in the current
year, all equal to 100. -/
def histCurrentOnly : History :=
  [(some 2025, [100, 100, 100, 100, 100, 100, 100, 100, 100, 100, 100])]

/-- A keyword whose past year 2024 recorded volume 1 every month. -/
def kwOnes : KeywordData Unit :=
  { keyword := "alpha"
    trend_history := [(some 2024, [1, 1, 1, 1, 1, 1, 1, 1, 1, 1, 1, 1])]
    similar_keywords := []
    extra := ()
    pct_change_next_month := 0
    pct_change_next_3mo := 0
    avg_monthly_searches := 0
    seasonal_volatility_score := 0 }

/-- A keyword whose past year 2024 recorded volume 2 every month. -/
def kwTwos : KeywordData Unit :=
  { keyword := "beta"
    trend_history := [(some 2024, [2, 2, 2, 2, 2, 2, 2, 2, 2, 2, 2, 2])]
    similar_keywords := []
    extra := ()
    pct_change_next_month := 0
    pct_change_next_3mo := 0
    avg_monthly_searches := 0
    seasonal_volatility_score := 0 }

/-- An ad group holding the two keywords above: their analyzed
avg_monthly_searches are 1 and 2, whose mean 3/2 is not an integer. -/
def grpMixed : AdGroupData Unit Unit :=
  { keywords := [kwOnes, kwTwos]
    extra := ()
    pct_change_next_month := 0
    pct_change_next_3mo := 0
    avg_monthly_searches := 0
    seasonal_volatility_score := 0 }

/-- A keyword with an empty trend history. -/
def kwEmptyHistory : KeywordData Unit :=
  { keyword := "gamma"
    trend_history := []
    similar_keywords := []
    extra := ()
    pct_change_next_month := 0
    pct_change_next_3mo := 0
    avg_monthly_searches := 0
    seasonal_volatility_score := 0 }

/-- An ad group holding the single empty-history keyword. -/
def grpSingle : AdGroupData Unit Unit :=
  { keywords := [kwEmptyHistory]
    extra := ()
    pct_change_next_month := 0
    pct_change_next_3mo := 0
    avg_monthly_searches := 0
    seasonal_volatility_score := 0 }

/-- A category holding the single ad group above. -/
def catSingle : CategoryData Unit Unit Unit :=
  { ad_groups := [grpSingle]
    extra := ()
    pct_change_next_month := 0
    pct_change_next_3mo := 0
    avg_monthly_searches := 0
    seasonal_volatility_score := 0 }

/-- A fold over a history ignores an entry whose year key is malformed
whenever its step function ignores none-keyed entries. -/
theorem foldr_skip_none {γ : Type} (f : Option ℤ × List ℤ → γ → γ)
    (hf : ∀ ms acc, f (none, ms) acc = acc) (h1 h2 : History) (ms : List ℤ)
    (b₀ : γ) :
    (h1 ++ (none, ms) :: h2).foldr f b₀ = (h1 ++ h2).foldr f b₀ := by
  simp [List.foldr_append, hf]

/-- The collected percent changes are the filterMap of the per-year amended
contribution over the history. -/
theorem pct_foldr_eq_filterMap (A : TrendAnalyzer) (b : Bool) (h : History) :
    h.foldr (pctChangeStep A b) [] =
      h.filterMap (pctChangeContribAmended A b) := by
  induction h with
  | nil => rfl
  | cons e t ih =>
    rcases e with ⟨k, ms⟩
    cases k with
    | none =>
      simpa [pctChangeStep, pctChangeContribAmended, List.filterMap_cons] using ih
    | some y =>
      simp only [List.foldr_cons, List.filterMap_cons, pctChangeStep,
        pctChangeContribAmended, ih]
      rcases lt_or_le y A.current_year with hy | hy
      · rw [if_neg (not_le.mpr hy), if_pos hy]
        split_ifs <;> simp
      · rw [if_pos hy, if_neg (not_lt.mpr hy)]

/-- The months selected by the fold of _calculate_avg_monthly_searches are
the flat selection avgSelectedAmended. -/
theorem avg_foldr_eq_selected (A : TrendAnalyzer) (h : History) :
    h.foldr (avgSearchesStep A) [] = avgSelectedAmended A h := by
  induction h with
  | nil => rfl
  | cons e t ih =>
    rcases e with ⟨k, ms⟩
    cases k with
    | none => simpa [avgSearchesStep, avgSelectedAmended] using ih
    | some y =>
      simp only [List.foldr_cons, avgSearchesStep, avgSelectedAmended,
        List.filterMap_cons, ih]
      split_ifs <;> simp [avgSelectedAmended]

/-- C1 (amended): the percent-change metric follows the spec's per-year
algorithm amended with the guard the code implements: a year before the
current year contributes (future - base) / base exactly when its base value
at month_index is non-zero AND its future value is strictly positive; the
result is the mean of the contributions times 100 rounded to one decimal,
0.0 when no year qualifies. -/
theorem pctChange_eq_amended (A : TrendAnalyzer) (h : History) (b : Bool) :
    calculatePctChange A h b = pctChangeAmended A h b := by
  unfold calculatePctChange pctChangeAmended pctChangeOfContribs
  rw [pct_foldr_eq_filterMap]

/-- C2 (amended): the average-monthly-searches metric equals the integer
truncation of the mean of the positive values drawn from all years strictly
before the current year plus the current year's months strictly before index
previous_month_current_year — that is, strictly before the current calendar
month, so the most-recently-completed month is included — and 0 when no
positive value is selected. -/
theorem avgMonthlySearches_eq_amended (A : TrendAnalyzer) (h : History) :
    calculateAvgMonthlySearches A h = avgMonthlySearchesAmended A h := by
  unfold calculateAvgMonthlySearches avgMonthlySearchesAmended
  rw [avg_foldr_eq_selected]
  by_cases hsel : (avgSelectedAmended A h).isEmpty
  · rw [if_pos hsel]
    rw [List.isEmpty_iff] at hsel
    simp [hsel]
  · rw [if_neg hsel]

/-- C4: with at least one similar keyword the weighted forecast is
0.5 * own + 0.5 * mean(similar), and with zero similar keywords it is the
keyword's own forecast unchanged (the same function serves the monthly and
the 3-month figures). -/
theorem weightedForecast_blend (own s : ℚ) (ss : List ℚ) :
    weightedForecast own (s :: ss) =
      (1 / 2) * own + (1 / 2) * ((s :: ss).sum / (((s :: ss).length : ℚ))) ∧
    weightedForecast own [] = own := by
  constructor <;> simp [weightedForecast]

/-- C5: extract_alerts_from_analysis emits exactly one alert record per entry
satisfying the threshold condition — weighted monthly change at least
min_increase_pct or at most max_decrease_pct, and historical average at least
min_hits_threshold — in order, and nothing else; both thresholds are
parameters. -/
theorem extractAlerts_characterization (results : List AnalysisEntry)
    (minIncreasePct maxDecreasePct minHitsThreshold : ℚ) :
    extractAlertsFromAnalysis results minIncreasePct maxDecreasePct
        minHitsThreshold =
      (results.filter
        (fun e =>
          decide (alertCond minIncreasePct maxDecreasePct minHitsThreshold e))).map
        mkAlert := by
  induction results with
  | nil => rfl
  | cons e t ih =>
    unfold extractAlertsFromAnalysis at ih ⊢
    simp only [List.foldr_cons, List.filter_cons, decide_eq_true_eq, alertCond,
      ih, List.map_cons]
    split_ifs with h
    · simp [mkAlert]
    · rfl

/-- C8: _safe_avg returns the arithmetic mean of the values at the given
indices excluding every index whose out-of-range-defaulted-to-zero value is
not positive, and 0 when no index yields a positive value. -/
theorem safeAvg_meets_contract (arr : List ℤ) (idxs : List ℕ) :
    safeAvg arr idxs = safeAvgClaimed arr idxs := by
  simp only [safeAvg, safeAvgClaimed, List.filter_map, Function.comp_def,
    List.length_map, List.isEmpty_iff, List.map_eq_nil_iff]

/-- C9: an entry with a malformed (unparseable) year key is skipped by each
of the three metric computations: each computes exactly the value it computes
on the history with that entry removed, so a malformed key never aborts the
keyword's computation. -/
theorem malformed_year_skipped (A : TrendAnalyzer) (h1 h2 : History)
    (ms : List ℤ) (b : Bool) :
    calculatePctChange A (h1 ++ (none, ms) :: h2) b =
      calculatePctChange A (h1 ++ h2) b ∧
    calculateAvgMonthlySearches A (h1 ++ (none, ms) :: h2) =
      calculateAvgMonthlySearches A (h1 ++ h2) ∧
    calculateSeasonalVolatility A (h1 ++ (none, ms) :: h2) =
      calculateSeasonalVolatility A (h1 ++ h2) := by
  refine ⟨?_, ?_, ?_⟩
  · unfold calculatePctChange
    rw [foldr_skip_none _ (fun _ _ => rfl)]
  · unfold calculateAvgMonthlySearches
    rw [foldr_skip_none _ (fun _ _ => rfl)]
  · have hm : monthlyMeans A (h1 ++ (none, ms) :: h2) = monthlyMeans A (h1 ++ h2) := by
      unfold monthlyMeans monthVals
      apply List.map_congr_left
      intro i _
      rw [foldr_skip_none _ (fun _ _ => rfl)]
    unfold calculateSeasonalVolatility
    rw [hm]

/-- C10: analysis only writes the four metric fields: a keyword keeps its
keyword, trend_history, similar_keywords and every other field; an ad group
keeps every field other than its rewritten keywords list and metrics; a
category keeps every field other than its rewritten ad_groups list and
metrics; analyze maps category analysis over its input list. -/
theorem analyze_frame {α β γ : Type} (A : TrendAnalyzer) (kd : KeywordData α)
    (g : AdGroupData α β) (c : CategoryData α β γ)
    (data : List (CategoryData α β γ)) :
    (analyzeKeyword A kd).keyword = kd.keyword ∧
    (analyzeKeyword A kd).trend_history = kd.trend_history ∧
    (analyzeKeyword A kd).similar_keywords = kd.similar_keywords ∧
    (analyzeKeyword A kd).extra = kd.extra ∧
    (analyzeAdGroup A g).keywords = g.keywords.map (analyzeKeyword A) ∧
    (analyzeAdGroup A g).extra = g.extra ∧
    (analyzeCategory A c).ad_groups = c.ad_groups.map (analyzeAdGroup A) ∧
    (analyzeCategory A c).extra = c.extra ∧
    analyze A data = data.map (analyzeCategory A) := by
  refine ⟨rfl, rfl, rfl, rfl, ?_, ?_, ?_, ?_, ?_⟩
  · unfold analyzeAdGroup
    dsimp only
    split <;> rfl
  · unfold analyzeAdGroup
    dsimp only
    split <;> rfl
  · unfold analyzeCategory
    dsimp only
    split <;> rfl
  · unfold analyzeCategory
    dsimp only
    split <;> rfl
  · unfold analyze
    split
    · next hempty => simp_all [List.isEmpty_iff]
    · rfl

/-- The production analyzer for October 2025, with its __init__ fields
evaluated. -/
theorem octAnalyzer_eq :
    octAnalyzer =
      { month_index := 8, next_month_index := 9, next_3mo_indices := [9, 10, 11],
        current_year := 2025, previous_month_current_year := 9 } := rfl

/-- C1 (counterexample): on a past year whose September base is 100 and whose
October value is 0, the code skips the year (future value not positive) and
returns 0.0, while the claim's algorithm — skip only when base == 0 —
collects (0 - 100) / 100 and returns -100.0. -/
theorem pctChange_claim_counterexample :
    calculatePctChange octAnalyzer histZeroFuture true = 0 ∧
    pctChangeClaimed octAnalyzer histZeroFuture true = -100 := by
  constructor
  · simp [calculatePctChange, pctChangeStep, octAnalyzer_eq, safeGet, histZeroFuture]
  · norm_num [pctChangeClaimed, pctChangeContribSpec, pctChangeOfContribs,
      octAnalyzer_eq, safeGet, histZeroFuture, round1, round_eq,
      List.filterMap_cons, List.filterMap_nil]

/-- C2 (counterexample): in October 2025, on a history with past-year values
1 and 2 and a current-year value 100 at index 8 (September, the most recently
completed month), the code averages {1, 2, 100} and truncates: 34; the
claim's formula — exclude the most-recently-completed month, exact division —
gives (1 + 2) / 2 = 3/2; the two disagree. -/
theorem avgMonthlySearches_claim_counterexample :
    calculateAvgMonthlySearches octAnalyzer histBoundary = 34 ∧
    avgMonthlySearchesClaimed 10 2025 histBoundary = 3 / 2 ∧
    ((calculateAvgMonthlySearches octAnalyzer histBoundary : ℚ) ≠
      avgMonthlySearchesClaimed 10 2025 histBoundary) := by
  refine ⟨?_, ?_, ?_⟩
  · norm_num [calculateAvgMonthlySearches, avgSearchesStep, octAnalyzer_eq,
      histBoundary, truncInt]
  · norm_num [avgMonthlySearchesClaimed, histBoundary,
      List.filterMap_cons, List.filterMap_nil, show Int.toNat 8 = 8 from rfl]
  · norm_num [calculateAvgMonthlySearches, avgSearchesStep, octAnalyzer_eq,
      histBoundary, truncInt, avgMonthlySearchesClaimed,
      List.filterMap_cons, List.filterMap_nil, show Int.toNat 8 = 8 from rfl]

/-- C3 (amended): at the ad-group level each of the four aggregate metrics
equals the arithmetic mean of the analyzed keywords' metrics passed through
the rounding the code attaches — one decimal for the two percentages, integer
truncation for avg_monthly_searches, two decimals for the volatility — and
the same holds at the category level over the ad groups' metrics. -/
theorem aggregate_mean_amended {α β γ : Type} (A : TrendAnalyzer)
    (g : AdGroupData α β) (c : CategoryData α β γ)
    (hg : g.keywords ≠ []) (hc : c.ad_groups ≠ []) :
    ((analyzeAdGroup A g).pct_change_next_month =
      round1 (((analyzeAdGroup A g).keywords.map
          (fun kw => kw.pct_change_next_month)).sum /
        ((analyzeAdGroup A g).keywords.length : ℚ))) ∧
    ((analyzeAdGroup A g).pct_change_next_3mo =
      round1 (((analyzeAdGroup A g).keywords.map
          (fun kw => kw.pct_change_next_3mo)).sum /
        ((analyzeAdGroup A g).keywords.length : ℚ))) ∧
    ((analyzeAdGroup A g).avg_monthly_searches =
      truncInt ((((analyzeAdGroup A g).keywords.map
          (fun kw => kw.avg_monthly_searches)).sum : ℚ) /
        ((analyzeAdGroup A g).keywords.length : ℚ))) ∧
    ((analyzeAdGroup A g).seasonal_volatility_score =
      round2 (((analyzeAdGroup A g).keywords.map
          (fun kw => kw.seasonal_volatility_score)).sum /
        ((analyzeAdGroup A g).keywords.length : ℝ))) ∧
    ((analyzeCategory A c).pct_change_next_month =
      round1 (((analyzeCategory A c).ad_groups.map
          (fun g0 => g0.pct_change_next_month)).sum /
        ((analyzeCategory A c).ad_groups.length : ℚ))) ∧
    ((analyzeCategory A c).pct_change_next_3mo =
      round1 (((analyzeCategory A c).ad_groups.map
          (fun g0 => g0.pct_change_next_3mo)).sum /
        ((analyzeCategory A c).ad_groups.length : ℚ))) ∧
    ((analyzeCategory A c).avg_monthly_searches =
      truncInt ((((analyzeCategory A c).ad_groups.map
          (fun g0 => g0.avg_monthly_searches)).sum : ℚ) /
        ((analyzeCategory A c).ad_groups.length : ℚ))) ∧
    ((analyzeCategory A c).seasonal_volatility_score =
      round2 (((analyzeCategory A c).ad_groups.map
          (fun g0 => g0.seasonal_volatility_score)).sum /
        ((analyzeCategory A c).ad_groups.length : ℝ))) := by
  obtain ⟨kws, gex, gp1, gp2, gp3, gp4⟩ := g
  obtain ⟨k, ks, rfl⟩ := List.exists_cons_of_ne_nil hg
  obtain ⟨ags, cex, cp1, cp2, cp3, cp4⟩ := c
  obtain ⟨a, as', rfl⟩ := List.exists_cons_of_ne_nil hc
  refine ⟨?_, ?_, ?_, ?_, ?_, ?_, ?_, ?_⟩ <;>
    simp [analyzeAdGroup, analyzeCategory]

/-- C3 (witness): the amended aggregate property instantiated on a singleton
ad group and a singleton category. -/
theorem aggregate_mean_amended_witness :
    grpSingle.keywords ≠ [] ∧ catSingle.ad_groups ≠ [] ∧
    ((analyzeAdGroup octAnalyzer grpSingle).pct_change_next_month =
      round1 ((((analyzeAdGroup octAnalyzer grpSingle).keywords.map
          (fun kw => kw.pct_change_next_month)).sum) /
        ((analyzeAdGroup octAnalyzer grpSingle).keywords.length : ℚ))) :=
  ⟨by simp [grpSingle], by simp [catSingle],
   (aggregate_mean_amended octAnalyzer grpSingle catSingle (by simp [grpSingle])
      (by simp [catSingle])).1⟩

/-- C3 (counterexample): an ad group whose keywords analyze to average
monthly searches 1 and 2 receives the truncated value 1, not the exact
arithmetic mean 3/2, so the mean-of-children equation does not hold
exactly. -/
theorem adGroup_mean_counterexample :
    (analyzeAdGroup octAnalyzer grpMixed).avg_monthly_searches = 1 ∧
    (((analyzeAdGroup octAnalyzer grpMixed).keywords.map
        (fun kw => (kw.avg_monthly_searches : ℚ))).sum /
      (((analyzeAdGroup octAnalyzer grpMixed).keywords.length : ℚ))) = 3 / 2 ∧
    ((analyzeAdGroup octAnalyzer grpMixed).avg_monthly_searches : ℚ) ≠
      (((analyzeAdGroup octAnalyzer grpMixed).keywords.map
          (fun kw => (kw.avg_monthly_searches : ℚ))).sum /
        (((analyzeAdGroup octAnalyzer grpMixed).keywords.length : ℚ))) := by
  refine ⟨?_, ?_, ?_⟩ <;>
    norm_num [analyzeAdGroup, analyzeKeyword, calculateAvgMonthlySearches,
      avgSearchesStep, truncInt, grpMixed, kwOnes, kwTwos, octAnalyzer_eq]

/-- The positive bucket values of the volatility computation are strictly
positive. -/
theorem monthVals_pos (A : TrendAnalyzer) (h : History) (i : ℕ) :
    ∀ v ∈ monthVals A h i, 0 < v := by
  unfold monthVals
  induction h with
  | nil => simp
  | cons e t ih =>
    rcases e with ⟨k, ms⟩
    intro v hv
    cases k with
    | none => exact ih v hv
    | some y =>
      simp only [List.foldr_cons, monthValsStep] at hv
      split at hv
      · rcases List.mem_append.mp hv with h1 | h2
        · split at h1
          · next w hw =>
            split at h1
            · rw [List.mem_singleton.mp h1]
              assumption
            · simp at h1
          · simp at h1
        · exact ih v h2
      · exact ih v hv

/-- Every per-month mean is non-negative. -/
theorem monthlyMeans_nonneg (A : TrendAnalyzer) (h : History) :
    ∀ m ∈ monthlyMeans A h, 0 ≤ m := by
  intro m hm
  unfold monthlyMeans at hm
  simp only [List.mem_map] at hm
  obtain ⟨i, -, rfl⟩ := hm
  split
  · exact le_refl 0
  · apply div_nonneg
    · have : (0 : ℤ) ≤ (monthVals A h i).sum :=
        List.sum_nonneg (fun x hx => le_of_lt (monthVals_pos A h i x hx))
      exact_mod_cast this
    · exact Nat.cast_nonneg _

/-- There are always exactly twelve per-month means. -/
theorem monthlyMeans_length (A : TrendAnalyzer) (h : History) :
    (monthlyMeans A h).length = 12 := by
  simp [monthlyMeans]

/-- A list of non-negative rationals with zero sum is all zeros. -/
theorem sum_zero_all_zero {l : List ℚ} (h0 : ∀ x ∈ l, 0 ≤ x)
    (hs : l.sum = 0) : ∀ x ∈ l, x = 0 := by
  induction l with
  | nil => simp
  | cons a t ih =>
    simp only [List.sum_cons] at hs
    have ha : 0 ≤ a := h0 a (by simp)
    have ht : 0 ≤ t.sum := List.sum_nonneg (fun x hx => h0 x (by simp [hx]))
    have ha0 : a = 0 := by linarith
    intro x hx
    rcases List.mem_cons.mp hx with rfl | hx'
    · exact ha0
    · exact ih (fun y hy => h0 y (by simp [hy])) (by linarith) x hx'

/-- Rounding to two decimals preserves non-negativity. -/
theorem round2_nonneg {x : ℝ} (hx : 0 ≤ x) : 0 ≤ round2 x := by
  unfold round2
  apply div_nonneg _ (by norm_num)
  have hr : (0 : ℤ) ≤ round (x * 100) := by
    rw [round_eq]
    refine Int.le_floor.mpr ?_
    push_cast
    linarith
  exact_mod_cast hr

/-- C6 (amended): the seasonal volatility score is always non-negative; it is
0.0 whenever the twelve per-month means are all equal (in particular all
zero); and whenever they are not all equal it equals the standard deviation
of the means divided by their mean rounded to two decimals — which can itself
round down to 0.0 for a tiny coefficient of variation. -/
theorem seasonalVolatility_amended (A : TrendAnalyzer) (h : History) :
    0 ≤ calculateSeasonalVolatility A h ∧
    (∀ c : ℚ, (∀ m ∈ monthlyMeans A h, m = c) →
      calculateSeasonalVolatility A h = 0) ∧
    ((¬ ∃ c : ℚ, ∀ m ∈ monthlyMeans A h, m = c) →
      calculateSeasonalVolatility A h =
        round2 (Real.sqrt ((varOfMeans A h : ℚ) : ℝ) /
          ((meanOfMeans A h : ℚ) : ℝ))) := by
  have hpos := monthlyMeans_nonneg A h
  have hlen := monthlyMeans_length A h
  refine ⟨?_, ?_, ?_⟩
  · unfold calculateSeasonalVolatility
    dsimp only
    split_ifs with hs ha
    · exact le_refl 0
    · exact le_refl 0
    · have hsum_nonneg : 0 ≤ (monthlyMeans A h).sum := List.sum_nonneg hpos
      have hsum_pos : 0 < (monthlyMeans A h).sum :=
        lt_of_le_of_ne hsum_nonneg (Ne.symm hs)
      have havg_pos : (0 : ℚ) <
          (monthlyMeans A h).sum / ((monthlyMeans A h).length : ℚ) := by
        rw [hlen]
        positivity
      have hx : (0 : ℝ) ≤
          Real.sqrt ((((monthlyMeans A h).map
            (fun m => (m - (monthlyMeans A h).sum /
              ((monthlyMeans A h).length : ℚ)) ^ 2)).sum /
              ((monthlyMeans A h).length : ℚ) : ℚ) : ℝ) /
            (((monthlyMeans A h).sum / ((monthlyMeans A h).length : ℚ) : ℚ) : ℝ) := by
        apply div_nonneg (Real.sqrt_nonneg _)
        exact_mod_cast le_of_lt havg_pos
      exact round2_nonneg hx
  · intro c hc
    by_cases hc0 : c = 0
    · subst hc0
      have hsum : (monthlyMeans A h).sum = 0 := List.sum_eq_zero hc
      unfold calculateSeasonalVolatility
      rw [if_pos hsum]
    · have hsum : (monthlyMeans A h).sum = 12 * c := by
        rw [List.sum_eq_card_nsmul (monthlyMeans A h) c hc, hlen]
        simp [nsmul_eq_mul]
      have havg : (monthlyMeans A h).sum / ((monthlyMeans A h).length : ℚ) = c := by
        rw [hsum, hlen]
        field_simp
      have hvar : ((monthlyMeans A h).map
          (fun m => (m - (monthlyMeans A h).sum /
            ((monthlyMeans A h).length : ℚ)) ^ 2)).sum = 0 := by
        apply List.sum_eq_zero
        intro x hx
        simp only [List.mem_map] at hx
        obtain ⟨m, hm, rfl⟩ := hx
        rw [havg, hc m hm]
        ring
      unfold calculateSeasonalVolatility
      rw [if_neg (by rw [hsum]; exact mul_ne_zero (by norm_num) hc0)]
      rw [if_neg (by rw [havg]; exact hc0)]
      rw [hvar]
      norm_num [round2]
  · intro hne
    have h0 : ¬ ∀ m ∈ monthlyMeans A h, m = 0 := fun hall => hne ⟨0, hall⟩
    have hs : (monthlyMeans A h).sum ≠ 0 :=
      fun hsum => h0 (sum_zero_all_zero hpos hsum)
    have havg : (monthlyMeans A h).sum / ((monthlyMeans A h).length : ℚ) ≠ 0 := by
      rw [hlen]
      intro hq
      exact hs (by
        have hd := (div_eq_zero_iff.mp hq)
        rcases hd with h1 | h2
        · exact h1
        · norm_num at h2)
    unfold calculateSeasonalVolatility
    rw [if_neg hs, if_neg havg]
    unfold varOfMeans meanOfMeans
    rfl

/-- C6 (witness): on the empty history all per-month means are 0 and the
volatility score is 0 and non-negative, via the amended theorem. -/
theorem seasonalVolatility_amended_witness :
    (∀ m ∈ monthlyMeans octAnalyzer [], m = 0) ∧
    0 ≤ calculateSeasonalVolatility octAnalyzer [] ∧
    calculateSeasonalVolatility octAnalyzer [] = 0 :=
  ⟨by decide, (seasonalVolatility_amended octAnalyzer []).1,
   (seasonalVolatility_amended octAnalyzer []).2.1 0 (by decide)⟩

/-- The per-month means of the tiny-coefficient-of-variation history. -/
theorem monthlyMeans_histTinyCV :
    monthlyMeans octAnalyzer histTinyCV =
      [1001, 1000, 1000, 1000, 1000, 1000, 1000, 1000, 1000, 1000, 1000, 1000] := by
  norm_num [monthlyMeans, monthVals, monthValsStep, histTinyCV, octAnalyzer_eq,
    show List.range 12 = [0, 1, 2, 3, 4, 5, 6, 7, 8, 9, 10, 11] from rfl]

/-- C6 (counterexample): on a history whose per-month means are 1001 once and
1000 eleven times — neither all zero nor all equal — the coefficient of
variation is below 0.005, so the code rounds the score to 0.0: the claim's
"equals 0.0 exactly when" characterization fails. -/
theorem seasonalVolatility_claim_counterexample :
    calculateSeasonalVolatility octAnalyzer histTinyCV = 0 ∧
    (¬ ∀ m ∈ monthlyMeans octAnalyzer histTinyCV, m = 0) ∧
    (¬ ∃ c : ℚ, c ≠ 0 ∧ ∀ m ∈ monthlyMeans octAnalyzer histTinyCV, m = c) := by
  refine ⟨?_, ?_, ?_⟩
  · have key : calculateSeasonalVolatility octAnalyzer histTinyCV =
        round2 (Real.sqrt ((11 / 144 : ℚ) : ℝ) / ((12001 / 12 : ℚ) : ℝ)) := by
      unfold calculateSeasonalVolatility
      rw [monthlyMeans_histTinyCV]
      norm_num
    rw [key]
    have hsq : Real.sqrt ((11 / 144 : ℚ) : ℝ) < 1 := by
      rw [Real.sqrt_lt' (by norm_num : (0 : ℝ) < 1)]
      push_cast
      norm_num
    have hsq0 : 0 ≤ Real.sqrt ((11 / 144 : ℚ) : ℝ) := Real.sqrt_nonneg _
    have hx0 : (0 : ℝ) ≤ Real.sqrt ((11 / 144 : ℚ) : ℝ) / ((12001 / 12 : ℚ) : ℝ) := by
      apply div_nonneg hsq0
      push_cast
      norm_num
    have hxlt : Real.sqrt ((11 / 144 : ℚ) : ℝ) / ((12001 / 12 : ℚ) : ℝ) <
        12 / 12001 := by
      rw [div_lt_iff₀ (by push_cast; norm_num)]
      push_cast
      nlinarith [hsq, hsq0]
    unfold round2
    have hround : round ((Real.sqrt ((11 / 144 : ℚ) : ℝ) /
        ((12001 / 12 : ℚ) : ℝ)) * 100) = 0 := by
      rw [round_eq]
      rw [Int.floor_eq_zero_iff]
      constructor
      · nlinarith [hx0]
      · nlinarith [hxlt]
    rw [hround]
    norm_num
  · intro hall
    have h1 := hall 1001 (by rw [monthlyMeans_histTinyCV]; simp)
    norm_num at h1
  · rintro ⟨c, hc0, hall⟩
    have h1 := hall 1001 (by rw [monthlyMeans_histTinyCV]; simp)
    have h2 := hall 1000 (by rw [monthlyMeans_histTinyCV]; simp)
    rw [← h1] at h2
    norm_num at h2

/-- With no parseable year strictly before the current year, the percent
change computation collects no changes. -/
theorem pct_changes_nil (A : TrendAnalyzer) (b : Bool) (h : History)
    (hnp : ∀ e ∈ h, ∀ y : ℤ, e.1 = some y → A.current_year ≤ y) :
    h.foldr (pctChangeStep A b) [] = [] := by
  induction h with
  | nil => rfl
  | cons e t ih =>
    rcases e with ⟨k, ms⟩
    have ht := ih (fun e' he' y hy => hnp e' (by simp [he']) y hy)
    cases k with
    | none => simpa [pctChangeStep] using ht
    | some y =>
      have hy := hnp (some y, ms) (by simp) y rfl
      simp [pctChangeStep, hy, ht]

/-- With no parseable year strictly before the current year, every per-month
bucket is empty. -/
theorem monthVals_nil (A : TrendAnalyzer) (h : History) (i : ℕ)
    (hnp : ∀ e ∈ h, ∀ y : ℤ, e.1 = some y → A.current_year ≤ y) :
    monthVals A h i = [] := by
  unfold monthVals
  induction h with
  | nil => rfl
  | cons e t ih =>
    rcases e with ⟨k, ms⟩
    have ht := ih (fun e' he' y hy => hnp e' (by simp [he']) y hy)
    cases k with
    | none => simpa [monthValsStep] using ht
    | some y =>
      have hy := hnp (some y, ms) (by simp) y rfl
      simp [monthValsStep, not_lt.mpr hy, ht]

/-- With no parseable prior year the volatility score is zero. -/
theorem volatility_zero_of_no_prior (A : TrendAnalyzer) (h : History)
    (hnp : ∀ e ∈ h, ∀ y : ℤ, e.1 = some y → A.current_year ≤ y) :
    calculateSeasonalVolatility A h = 0 := by
  have hz : ∀ m ∈ monthlyMeans A h, m = 0 := by
    intro m hm
    unfold monthlyMeans at hm
    simp only [List.mem_map] at hm
    obtain ⟨i, -, rfl⟩ := hm
    rw [monthVals_nil A h i hnp]
    rfl
  unfold calculateSeasonalVolatility
  rw [if_pos (List.sum_eq_zero hz)]

/-- C7 (amended): on a history with no entry whose parseable year lies
strictly before the current year, both percent changes and the volatility
score are 0.0 (regardless of how many current-year entries it carries), and
on an empty or missing history keyword analysis attaches all four zero
defaults without raising; avg_monthly_searches, however, may be non-zero when
the current year carries positive months before the current calendar
month. -/
theorem keyword_zero_defaults_amended {α : Type} (A : TrendAnalyzer)
    (h : History)
    (hnp : ∀ e ∈ h, ∀ y : ℤ, e.1 = some y → A.current_year ≤ y)
    (kd : KeywordData α) (hkd : kd.trend_history = []) :
    calculatePctChange A h true = 0 ∧
    calculatePctChange A h false = 0 ∧
    calculateSeasonalVolatility A h = 0 ∧
    (analyzeKeyword A kd).pct_change_next_month = 0 ∧
    (analyzeKeyword A kd).pct_change_next_3mo = 0 ∧
    (analyzeKeyword A kd).avg_monthly_searches = 0 ∧
    (analyzeKeyword A kd).seasonal_volatility_score = 0 := by
  refine ⟨?_, ?_, ?_, ?_, ?_, ?_, ?_⟩
  · unfold calculatePctChange
    rw [pct_changes_nil A true h hnp]
    rfl
  · unfold calculatePctChange
    rw [pct_changes_nil A false h hnp]
    rfl
  · exact volatility_zero_of_no_prior A h hnp
  · show calculatePctChange A kd.trend_history true = 0
    rw [hkd]
    rfl
  · show calculatePctChange A kd.trend_history false = 0
    rw [hkd]
    rfl
  · show calculateAvgMonthlySearches A kd.trend_history = 0
    rw [hkd]
    rfl
  · show calculateSeasonalVolatility A kd.trend_history = 0
    rw [hkd]
    exact volatility_zero_of_no_prior A [] (by simp)

/-- C7 (witness): the amended defaults instantiated on the current-year-only
history and the empty-history keyword. -/
theorem keyword_zero_defaults_amended_witness :
    (∀ e ∈ histCurrentOnly, ∀ y : ℤ, e.1 = some y → octAnalyzer.current_year ≤ y) ∧
    kwEmptyHistory.trend_history = [] ∧
    calculatePctChange octAnalyzer histCurrentOnly true = 0 ∧
    (analyzeKeyword octAnalyzer kwEmptyHistory).avg_monthly_searches = 0 := by
  have hnp : ∀ e ∈ histCurrentOnly, ∀ y : ℤ,
      e.1 = some y → octAnalyzer.current_year ≤ y := by
    intro e he y hy
    simp only [histCurrentOnly, List.mem_singleton] at he
    subst he
    simp only [Option.some.injEq] at hy
    subst hy
    rw [octAnalyzer_eq]
  exact ⟨hnp, rfl,
    (keyword_zero_defaults_amended octAnalyzer histCurrentOnly hnp
      kwEmptyHistory rfl).1,
    (keyword_zero_defaults_amended octAnalyzer histCurrentOnly hnp
      kwEmptyHistory rfl).2.2.2.2.2.1⟩

/-- C7 (counterexample): a history with no prior-year entry and only eleven
current-year entries (all 100) — squarely inside the claim's "fewer than 12
entries in the current year and none in prior years" premise — yields
avg_monthly_searches = 100, not the claimed zero default, because the code
averages the current year's months before the current calendar month. -/
theorem keyword_zero_defaults_counterexample :
    (∀ e ∈ histCurrentOnly, e.1 = some 2025) ∧
    (∀ e ∈ histCurrentOnly, e.2.length < 12) ∧
    octAnalyzer.current_year = 2025 ∧
    calculateAvgMonthlySearches octAnalyzer histCurrentOnly = 100 := by
  refine ⟨by decide, by decide, rfl, ?_⟩
  norm_num [calculateAvgMonthlySearches, avgSearchesStep, octAnalyzer_eq,
    histCurrentOnly, truncInt]
